import Mathlib

/-!
Verification of the tedious TDS driver excerpt: collation decoding,
COLMETADATA parsing, the SmallDateTime data type, and the bulk-load
column-configuration phase rules.  Definitions are shallow embeddings of
the TypeScript source in `src/metadata-parser.ts` (which also carries the
SmallDateTime data-type module) and, where the source file is not part of
the excerpt, models written from the specification (marked as such).
-/

set_option maxRecDepth 100000

namespace Tedious

/-- Decoded collation comparison flags, one boolean per bit, as in the
`CollationFlags` interface of `metadata-parser.ts`. -/
structure CollationFlags where
  fIgnoreCase : Bool
  fIgnoreAccent : Bool
  fIgnoreWidth : Bool
  fIgnoreKana : Bool
  fBinary : Bool
  fBinary2 : Bool
  fUTF8 : Bool
  fReservedBit : Bool
deriving Repr, DecidableEq

/-- Decoded collation record, as in the `Collation` interface. -/
structure Collation where
  lcid : Nat
  flags : Nat
  _flags : CollationFlags
  version : Nat
  sortId : Nat
  codepage : String
deriving Repr, DecidableEq

/-- Five-byte collation wire buffer `LL LL FL VF SS`; each field is one
byte of the `Buffer` handed to `_parseCollation`. -/
structure Buffer5 where
  b0 : Nat
  b1 : Nat
  b2 : Nat
  b3 : Nat
  b4 : Nat
deriving Repr, DecidableEq

/-- Embedding of `_parseCollation` from `metadata-parser.ts`.  The two
codepage tables live in `collation.ts`, outside the excerpt, so they are
taken as parameters: a table is a partial map from key to codepage name
(`none` models a missing entry, i.e. a JavaScript `undefined` lookup). -/
def _parseCollation (codepageByLcid codepageBySortId : Nat → Option String)
    (collationData : Buffer5) : Collation :=
  let lcid0 := (collationData.b2 &&& 0x0F) <<< 16
  let lcid1 := lcid0 ||| (collationData.b1 <<< 8)
  let lcid := lcid1 ||| collationData.b0
  let flags := (collationData.b2 &&& 0xF0) ||| (collationData.b3 &&& 0x0F)
  let _flags : CollationFlags := {
    fIgnoreCase := (flags &&& 0x10) == 0x10
    fIgnoreAccent := (flags &&& 0x20) == 0x20
    fIgnoreKana := (flags &&& 0x40) == 0x40
    fIgnoreWidth := (flags &&& 0x80) == 0x80
    fBinary := (flags &&& 0x01) == 0x01
    fBinary2 := (flags &&& 0x02) == 0x02
    fUTF8 := (flags &&& 0x04) == 0x04
    fReservedBit := (flags &&& 0x08) == 0x08
  }
  let version := ((collationData.b3 &&& 0xF0) >>> 4) &&& 0x0F
  let sortId := collationData.b4
  let codepage : Option String :=
    if _flags.fUTF8 then
      some "utf8"
    else if sortId == 0x00 then
      codepageByLcid lcid
    else
      codepageBySortId sortId
  { lcid := lcid, flags := flags, _flags := _flags, version := version,
    sortId := sortId, codepage := codepage.getD "CP1252" }

/-- Byte-level fact: masking a byte with `0xF0` keeps the high nybble. -/
theorem byte_and_240 : ∀ x, x < 256 → x &&& 240 = x / 16 * 16 := by decide

/-- Byte-level fact: the version nybble extraction equals division by 16. -/
theorem byte_version : ∀ x, x < 256 → ((x &&& 240) >>> 4) &&& 15 = x / 16 := by decide

/-- Byte-level fact: the trailing `&&& 0x0F` in the version extraction is
redundant on bytes. -/
theorem byte_version_redundant :
    ∀ x, x < 256 → ((x &&& 240) >>> 4) &&& 15 = (x &&& 240) >>> 4 := by decide

/-- Masking with 15 is reduction mod 16 (specialisation of
`Nat.and_pow_two_sub_one_eq_mod`). -/
theorem and_15_eq_mod_16 (x : Nat) : x &&& 15 = x % 16 := by
  have h := Nat.and_pow_two_sub_one_eq_mod x 4
  norm_num at h
  exact h

/-- C1: for every 5-byte buffer (each byte below 256), `_parseCollation`
returns `lcid = ((b2 & 0x0F) << 16) | (b1 << 8) | b0` (equivalently the
20-bit value `(b2 % 16)·65536 + b1·256 + b0`), `flags = (b2 & 0xF0) |
(b3 & 0x0F)` (equivalently `(b2 / 16)·16 + b3 % 16`), `version =
(b3 & 0xF0) >> 4` (equivalently `b3 / 16`), and `sortId = b4`. -/
theorem parseCollation_field_decode (L S : Nat → Option String) (b : Buffer5)
    (h0 : b.b0 < 256) (h1 : b.b1 < 256) (h2 : b.b2 < 256) (h3 : b.b3 < 256) :
    (_parseCollation L S b).lcid = ((b.b2 &&& 0x0F) <<< 16) ||| (b.b1 <<< 8) ||| b.b0
    ∧ (_parseCollation L S b).lcid = b.b2 % 16 * 65536 + b.b1 * 256 + b.b0
    ∧ (_parseCollation L S b).flags = (b.b2 &&& 0xF0) ||| (b.b3 &&& 0x0F)
    ∧ (_parseCollation L S b).flags = b.b2 / 16 * 16 + b.b3 % 16
    ∧ (_parseCollation L S b).version = (b.b3 &&& 0xF0) >>> 4
    ∧ (_parseCollation L S b).version = b.b3 / 16
    ∧ (_parseCollation L S b).sortId = b.b4 := by
  refine ⟨rfl, ?_, rfl, ?_, ?_, ?_, rfl⟩
  · show ((b.b2 &&& 0x0F) <<< 16) ||| (b.b1 <<< 8) ||| b.b0
      = b.b2 % 16 * 65536 + b.b1 * 256 + b.b0
    rw [and_15_eq_mod_16, Nat.shiftLeft_eq, Nat.shiftLeft_eq]
    norm_num
    have hb1 : b.b1 * 256 < 2 ^ 16 := by omega
    have hstep1 : 2 ^ 16 * (b.b2 % 16) + b.b1 * 256
        = 2 ^ 16 * (b.b2 % 16) ||| b.b1 * 256 := Nat.mul_add_lt_is_or hb1 _
    have hcomm : b.b2 % 16 * 65536 = 2 ^ 16 * (b.b2 % 16) := by ring
    rw [hcomm, ← hstep1]
    have hsplit : 2 ^ 16 * (b.b2 % 16) + b.b1 * 256
        = 2 ^ 8 * (2 ^ 8 * (b.b2 % 16) + b.b1) := by ring
    have hstep2 : 2 ^ 8 * (2 ^ 8 * (b.b2 % 16) + b.b1) + b.b0
        = 2 ^ 8 * (2 ^ 8 * (b.b2 % 16) + b.b1) ||| b.b0 := Nat.mul_add_lt_is_or h0 _
    rw [hsplit, ← hstep2]
  · show (b.b2 &&& 0xF0) ||| (b.b3 &&& 0x0F) = b.b2 / 16 * 16 + b.b3 % 16
    rw [byte_and_240 b.b2 h2, and_15_eq_mod_16]
    have hlow : b.b3 % 16 < 2 ^ 4 := by omega
    have hstep : 2 ^ 4 * (b.b2 / 16) + b.b3 % 16
        = 2 ^ 4 * (b.b2 / 16) ||| b.b3 % 16 := Nat.mul_add_lt_is_or hlow _
    have hcomm : b.b2 / 16 * 16 = 2 ^ 4 * (b.b2 / 16) := by ring
    rw [hcomm, ← hstep]
  · show ((b.b3 &&& 0xF0) >>> 4) &&& 0x0F = (b.b3 &&& 0xF0) >>> 4
    exact byte_version_redundant b.b3 h3
  · show ((b.b3 &&& 0xF0) >>> 4) &&& 0x0F = b.b3 / 16
    exact byte_version b.b3 h3

/-- Concrete codepage-by-LCID table fragment used to instantiate witnesses. -/
def sampleLcidTable : Nat → Option String :=
  fun n => if n = 1033 then some "CP1252" else none

/-- Concrete codepage-by-sortId table fragment used to instantiate
witnesses (sortId 154 resolves to CP1257, as in the unit test). -/
def sampleSortIdTable : Nat → Option String :=
  fun n => if n = 154 then some "CP1257" else none

/-- Witness for C1 at the captured collation bytes `09 04 e0 24 00`. -/
theorem parseCollation_field_decode_witness :
    (9 < 256 ∧ 4 < 256 ∧ 224 < 256 ∧ 36 < 256)
    ∧ (_parseCollation sampleLcidTable sampleSortIdTable ⟨9, 4, 224, 36, 0⟩).lcid
        = 224 % 16 * 65536 + 4 * 256 + 9
    ∧ (_parseCollation sampleLcidTable sampleSortIdTable ⟨9, 4, 224, 36, 0⟩).version
        = 36 / 16
    ∧ (_parseCollation sampleLcidTable sampleSortIdTable ⟨9, 4, 224, 36, 0⟩).sortId = 0 :=
  ⟨⟨by decide, by decide, by decide, by decide⟩,
    (parseCollation_field_decode sampleLcidTable sampleSortIdTable ⟨9, 4, 224, 36, 0⟩
      (by decide) (by decide) (by decide) (by decide)).2.1,
    (parseCollation_field_decode sampleLcidTable sampleSortIdTable ⟨9, 4, 224, 36, 0⟩
      (by decide) (by decide) (by decide) (by decide)).2.2.2.2.2.1,
    (parseCollation_field_decode sampleLcidTable sampleSortIdTable ⟨9, 4, 224, 36, 0⟩
      (by decide) (by decide) (by decide) (by decide)).2.2.2.2.2.2⟩

/-- C2: the codepage of a parsed collation is resolved in this order:
`"utf8"` when the decoded `fUTF8` flag is set; otherwise the LCID table
entry when `sortId = 0`; otherwise the sortId table entry; with
`"CP1252"` substituted whenever the chosen table lookup has no entry. -/
theorem parseCollation_codepage_resolution (L S : Nat → Option String) (b : Buffer5) :
    (_parseCollation L S b).codepage =
      if (_parseCollation L S b)._flags.fUTF8 then "utf8"
      else if (_parseCollation L S b).sortId = 0 then
        (L (_parseCollation L S b).lcid).getD "CP1252"
      else
        (S (_parseCollation L S b).sortId).getD "CP1252" := by
  unfold _parseCollation
  simp only []
  by_cases hu : ((b.b2 &&& 0xF0 ||| b.b3 &&& 0x0F) &&& 0x04) == 0x04
  · simp [hu]
  · by_cases hs : b.b4 = 0
    · simp [hu, hs]
    · simp [hu, hs]

/-- C9: in every parsed collation the eight `_flags` booleans decode the
returned `flags` value with the fixed bit assignment: `fIgnoreCase` bit 4
(`0x10`), `fIgnoreAccent` bit 5 (`0x20`), `fIgnoreKana` bit 6 (`0x40`),
`fIgnoreWidth` bit 7 (`0x80`), `fBinary` bit 0 (`0x01`), `fBinary2` bit 1
(`0x02`), `fUTF8` bit 2 (`0x04`), `fReservedBit` bit 3 (`0x08`); each
boolean is true exactly when its bit is set in the `flags` field. -/
theorem parseCollation_flag_bits (L S : Nat → Option String) (b : Buffer5) :
    (_parseCollation L S b)._flags.fIgnoreCase = (_parseCollation L S b).flags.testBit 4
    ∧ (_parseCollation L S b)._flags.fIgnoreAccent = (_parseCollation L S b).flags.testBit 5
    ∧ (_parseCollation L S b)._flags.fIgnoreKana = (_parseCollation L S b).flags.testBit 6
    ∧ (_parseCollation L S b)._flags.fIgnoreWidth = (_parseCollation L S b).flags.testBit 7
    ∧ (_parseCollation L S b)._flags.fBinary = (_parseCollation L S b).flags.testBit 0
    ∧ (_parseCollation L S b)._flags.fBinary2 = (_parseCollation L S b).flags.testBit 1
    ∧ (_parseCollation L S b)._flags.fUTF8 = (_parseCollation L S b).flags.testBit 2
    ∧ (_parseCollation L S b)._flags.fReservedBit = (_parseCollation L S b).flags.testBit 3 := by
  have hflags : (_parseCollation L S b).flags < 256 := by
    have hhigh : b.b2 &&& 0xF0 < 256 :=
      Nat.lt_of_le_of_lt Nat.and_le_right (by norm_num)
    have hlow : b.b3 &&& 0x0F < 256 :=
      Nat.lt_of_le_of_lt Nat.and_le_right (by norm_num)
    exact Nat.or_lt_two_pow (n := 8) hhigh hlow
  have key : ∀ f, f < 256 →
      (((f &&& 16) == 16) = f.testBit 4 ∧ ((f &&& 32) == 32) = f.testBit 5
      ∧ ((f &&& 64) == 64) = f.testBit 6 ∧ ((f &&& 128) == 128) = f.testBit 7
      ∧ ((f &&& 1) == 1) = f.testBit 0 ∧ ((f &&& 2) == 2) = f.testBit 1
      ∧ ((f &&& 4) == 4) = f.testBit 2 ∧ ((f &&& 8) == 8) = f.testBit 3) := by decide
  exact key (_parseCollation L S b).flags hflags

/-- Result of running a suspendable read over a byte stream: a decoded
value with the remaining bytes, a thrown JavaScript error, or a
suspension awaiting more bytes (the stream parser resumes the
continuation once the framer delivers them). -/
inductive PResult (α : Type) where
  | ok (value : α) (rest : List Nat)
  | thrown (msg : String)
  | needMore
deriving Repr, DecidableEq

/-- A suspendable reader over the inbound byte stream, embedding the
continuation-passing readers of `token/stream-parser`. -/
def ParserM (α : Type) : Type := List Nat → PResult α

/-- Sequencing of suspendable readers: run the first reader, feed its
value and the remaining bytes to the continuation; propagate thrown
errors and suspensions. This is the embedding of nesting one
`parser.readX(cb)` callback inside another. -/
def pbind {α β : Type} (p : ParserM α) (f : α → ParserM β) : ParserM β :=
  fun input =>
    match p input with
    | .ok v rest => f v rest
    | .thrown m => .thrown m
    | .needMore => .needMore

/-- Reader that consumes nothing and yields a value. -/
def ppure {α : Type} (a : α) : ParserM α := fun input => .ok a input

/-- Reader that throws a JavaScript error with the given message. -/
def pthrow {α : Type} (m : String) : ParserM α := fun _ => .thrown m

/-- Embedding of `parser.readUInt8`. -/
def readUInt8 : ParserM Nat := fun input =>
  match input with
  | [] => .needMore
  | b :: rest => .ok b rest

/-- Embedding of `parser.readUInt16LE` (little endian: low byte first). -/
def readUInt16LE : ParserM Nat := fun input =>
  match input with
  | b0 :: b1 :: rest => .ok (b0 + b1 * 256) rest
  | _ => .needMore

/-- Embedding of `parser.readUInt32LE` (little endian: low byte first). -/
def readUInt32LE : ParserM Nat := fun input =>
  match input with
  | b0 :: b1 :: b2 :: b3 :: rest =>
      .ok (b0 + b1 * 256 + b2 * 65536 + b3 * 16777216) rest
  | _ => .needMore

/-- Embedding of `parser.readBuffer(n)`: yield the next `n` bytes, or
suspend when fewer are buffered. -/
def readBuffer (n : Nat) : ParserM (List Nat) := fun input =>
  if n ≤ input.length then .ok (input.take n) (input.drop n) else .needMore

/-- One UCS-2 LE code unit decoded to a character. -/
def ucs2Char (lo hi : Nat) : Char := Char.ofNat (lo + hi * 256)

/-- Decoding of a UCS-2 LE byte sequence to a string. -/
def ucs2Decode : List Nat → String
  | lo :: hi :: rest => String.singleton (ucs2Char lo hi) ++ ucs2Decode rest
  | _ => ""

/-- Embedding of `parser.readBVarChar`: a u8 character count followed by
that many UCS-2 LE characters. -/
def readBVarChar : ParserM String :=
  pbind readUInt8 fun len =>
  pbind (readBuffer (2 * len)) fun bytes =>
  ppure (ucs2Decode bytes)

/-- Embedding of `parser.readUsVarChar`: a u16 character count followed
by that many UCS-2 LE characters. -/
def readUsVarChar : ParserM String :=
  pbind readUInt16LE fun len =>
  pbind (readBuffer (2 * len)) fun bytes =>
  ppure (ucs2Decode bytes)

/-- XML schema description block, as in the `XmlSchema` interface. -/
structure XmlSchema where
  dbname : String
  owningSchema : String
  xmlSchemaCollection : String
deriving Repr, DecidableEq

/-- UDT description block, as in the `UdtInfo` interface. -/
structure UdtInfo where
  maxByteSize : Nat
  dbname : String
  owningSchema : String
  typeName : String
  assemblyName : String
deriving Repr, DecidableEq

/-- Names of the TDS data types distinguished by the `switch` in
`metadataParse`; the registry in `data-type.ts` (outside the excerpt)
maps wire ids to entries whose names are drawn from exactly the type
families listed in the specification, which coincide with these cases. -/
inductive DataTypeName where
  | Null | TinyInt | SmallInt | Int | BigInt | Real | Float | SmallMoney
  | Money | Bit | SmallDateTime | DateTime | Date
  | IntN | FloatN | MoneyN | BitN | UniqueIdentifier | DateTimeN
  | Variant
  | VarChar | Char | NVarChar | NChar
  | Text | NText
  | VarBinary | Binary
  | Image
  | Xml
  | Time | DateTime2 | DateTimeOffset
  | NumericN | DecimalN
  | UDT
deriving Repr, DecidableEq

/-- Connection options observed by `metadataParse`: only the TDS version
string (`"7_0"`, `"7_1"`, `"7_2"`, ...) matters here. -/
structure InternalConnectionOptions where
  tdsVersion : String
deriving Repr, DecidableEq

/-- Modelled from the spec: the process-wide immutable tables imported by
`metadata-parser.ts` — the data-type registry of `data-type.ts` keyed by
wire id, and the two codepage tables of `collation.ts` — none of which
are part of the excerpt. A registry entry is reduced to its name, which
is all `metadataParse` inspects. -/
structure Env where
  TYPE : Nat → Option DataTypeName
  codepageByLcid : Nat → Option String
  codepageBySortId : Nat → Option String

/-- Column metadata record delivered by `metadataParse`, as in the
`BaseMetadata` type (the crypto extension is never populated here). -/
structure Metadata where
  userType : Nat
  flags : Nat
  type : DataTypeName
  collation : Option Collation
  precision : Option Nat
  scale : Option Nat
  dataLength : Option Nat
  schema : Option XmlSchema
  udtInfo : Option UdtInfo
deriving Repr, DecidableEq

/-- Single uppercase hexadecimal digit. -/
def hexDigit (n : Nat) : Char :=
  if n < 10 then Char.ofNat (48 + n) else Char.ofNat (55 + n)

/-- Hexadecimal digits of `n`, least significant first; `fuel` bounds the
recursion and any `fuel ≥ n` is enough. -/
def toHexRev (fuel n : Nat) : List Char :=
  match fuel with
  | 0 => []
  | f + 1 => if n = 0 then [] else hexDigit (n % 16) :: toHexRev f (n / 16)

/-- Embedding of `sprintf` with format `%02X`: uppercase hexadecimal,
zero-padded to at least two digits. -/
def sprintf02X (n : Nat) : String :=
  let ds := (toHexRev n n).reverse
  String.mk (if ds.length = 0 then ['0', '0'] else if ds.length = 1 then '0' :: ds else ds)

/-- Embedding of `readCollation`: read a 5-byte buffer and parse it; the
impossible non-5-byte shape is mapped to a thrown error. -/
def readCollation (env : Env) : ParserM Collation :=
  pbind (readBuffer 5) fun collationData =>
  match collationData with
  | [b0, b1, b2, b3, b4] =>
      ppure (_parseCollation env.codepageByLcid env.codepageBySortId ⟨b0, b1, b2, b3, b4⟩)
  | _ => pthrow "unreachable"

/-- Embedding of `readSchema`: a u8 presence flag; when it is `0x01`, a
BVARCHAR dbname, a BVARCHAR owning schema and a USVARCHAR collection. -/
def readSchema : ParserM (Option XmlSchema) :=
  pbind readUInt8 fun schemaPresent =>
  if schemaPresent = 0x01 then
    pbind readBVarChar fun dbname =>
    pbind readBVarChar fun owningSchema =>
    pbind readUsVarChar fun xmlSchemaCollection =>
    ppure (some { dbname := dbname, owningSchema := owningSchema,
                  xmlSchemaCollection := xmlSchemaCollection })
  else
    ppure none

/-- Embedding of `readUDTInfo`. -/
def readUDTInfo : ParserM (Option UdtInfo) :=
  pbind readUInt16LE fun maxByteSize =>
  pbind readBVarChar fun dbname =>
  pbind readBVarChar fun owningSchema =>
  pbind readBVarChar fun typeName =>
  pbind readUsVarChar fun assemblyName =>
  ppure (some { maxByteSize := maxByteSize, dbname := dbname,
                owningSchema := owningSchema, typeName := typeName,
                assemblyName := assemblyName })

/-- Per-type tail decoding of `metadataParse`: the body of the `switch`
on the resolved type's name, hoisted into its own definition. -/
def mdTail (env : Env) (type : DataTypeName) (userType flags : Nat) : ParserM Metadata :=
  match type with
    | .Null | .TinyInt | .SmallInt | .Int | .BigInt | .Real | .Float | .SmallMoney
    | .Money | .Bit | .SmallDateTime | .DateTime | .Date =>
        ppure { userType := userType, flags := flags, type := type,
                collation := none, precision := none, scale := none,
                dataLength := none, schema := none, udtInfo := none }
    | .IntN | .FloatN | .MoneyN | .BitN | .UniqueIdentifier | .DateTimeN =>
        pbind readUInt8 fun dataLength =>
        ppure { userType := userType, flags := flags, type := type,
                collation := none, precision := none, scale := none,
                dataLength := some dataLength, schema := none, udtInfo := none }
    | .Variant =>
        pbind readUInt32LE fun dataLength =>
        ppure { userType := userType, flags := flags, type := type,
                collation := none, precision := none, scale := none,
                dataLength := some dataLength, schema := none, udtInfo := none }
    | .VarChar | .Char | .NVarChar | .NChar =>
        pbind readUInt16LE fun dataLength =>
        pbind (readCollation env) fun collation =>
        ppure { userType := userType, flags := flags, type := type,
                collation := some collation, precision := none, scale := none,
                dataLength := some dataLength, schema := none, udtInfo := none }
    | .Text | .NText =>
        pbind readUInt32LE fun dataLength =>
        pbind (readCollation env) fun collation =>
        ppure { userType := userType, flags := flags, type := type,
                collation := some collation, precision := none, scale := none,
                dataLength := some dataLength, schema := none, udtInfo := none }
    | .VarBinary | .Binary =>
        pbind readUInt16LE fun dataLength =>
        ppure { userType := userType, flags := flags, type := type,
                collation := none, precision := none, scale := none,
                dataLength := some dataLength, schema := none, udtInfo := none }
    | .Image =>
        pbind readUInt32LE fun dataLength =>
        ppure { userType := userType, flags := flags, type := type,
                collation := none, precision := none, scale := none,
                dataLength := some dataLength, schema := none, udtInfo := none }
    | .Xml =>
        pbind readSchema fun schema =>
        ppure { userType := userType, flags := flags, type := type,
                collation := none, precision := none, scale := none,
                dataLength := none, schema := schema, udtInfo := none }
    | .Time | .DateTime2 | .DateTimeOffset =>
        pbind readUInt8 fun scale =>
        ppure { userType := userType, flags := flags, type := type,
                collation := none, precision := none, scale := some scale,
                dataLength := none, schema := none, udtInfo := none }
    | .NumericN | .DecimalN =>
        pbind readUInt8 fun dataLength =>
        pbind readUInt8 fun precision =>
        pbind readUInt8 fun scale =>
        ppure { userType := userType, flags := flags, type := type,
                collation := none, precision := some precision, scale := some scale,
                dataLength := some dataLength, schema := none, udtInfo := none }
    | .UDT =>
        pbind readUDTInfo fun udtInfo =>
        ppure { userType := userType, flags := flags, type := type,
                collation := none, precision := none, scale := none,
                dataLength := none, schema := none, udtInfo := udtInfo }

/-- Embedding of `metadataParse` from `metadata-parser.ts`: read
`userType` (u16 before TDS 7.2, else u32, the comparison being the
string comparison of the source), `flags` (u16), the type id (u8),
resolve the id in the registry (unknown ids throw), then decode the
per-type tail (`mdTail`) and deliver the metadata record. -/
def metadataParse (env : Env) (options : InternalConnectionOptions) : ParserM Metadata :=
  pbind (if options.tdsVersion < "7_2" then readUInt16LE else readUInt32LE) fun userType =>
  pbind readUInt16LE fun flags =>
  pbind readUInt8 fun typeNumber =>
  match env.TYPE typeNumber with
  | none => pthrow ("Unrecognised data type 0x" ++ sprintf02X typeNumber)
  | some type => mdTail env type userType flags

/-- Reduction of `readCollation` on a stream holding at least 5 bytes. -/
theorem readCollation_cons (env : Env) (c0 c1 c2 c3 c4 : Nat) (rest : List Nat) :
    readCollation env (c0 :: c1 :: c2 :: c3 :: c4 :: rest)
      = .ok (_parseCollation env.codepageByLcid env.codepageBySortId ⟨c0, c1, c2, c3, c4⟩) rest := by
  have h5 : 5 ≤ (c0 :: c1 :: c2 :: c3 :: c4 :: rest).length := by simp
  simp [readCollation, pbind, readBuffer, h5, ppure]

/-- Concrete registry fragment used to instantiate witnesses: the wire
ids of Int (0x38), VarChar (0xA7) and DecimalN (0x6A). -/
def sampleEnv : Env where
  TYPE := fun n =>
    if n = 0x38 then some .Int
    else if n = 0xA7 then some .VarChar
    else if n = 0x6A then some .DecimalN
    else none
  codepageByLcid := sampleLcidTable
  codepageBySortId := sampleSortIdTable

/-- Connection options for a TDS 7.4 connection. -/
def sampleOptions74 : InternalConnectionOptions := ⟨"7_4"⟩

/-- Connection options for a TDS 7.1 connection. -/
def sampleOptions71 : InternalConnectionOptions := ⟨"7_1"⟩

/-- Lexicographic fact used by witnesses: `"7_1"` orders before `"7_2"`. -/
theorem tds71_lt : sampleOptions71.tdsVersion < "7_2" := by
  show ("7_1" : String) < "7_2"
  rw [String.lt_iff_toList_lt]
  decide

/-- Lexicographic fact used by witnesses: `"7_4"` does not order before
`"7_2"`. -/
theorem tds74_not_lt : ¬ sampleOptions74.tdsVersion < "7_2" := by
  show ¬ ("7_4" : String) < "7_2"
  rw [String.lt_iff_toList_lt]
  decide

/-- C4: for a column whose resolved type is VarChar, Char, NVarChar or
NChar, `metadataParse` reads a u16 `dataLength` followed by a 5-byte
collation and delivers metadata carrying that length and the decoded
collation with `precision` and `scale` undefined; for NumericN or
DecimalN it reads a u8 `dataLength`, a u8 `precision` and a u8 `scale`
and delivers those three with `collation` undefined. -/
theorem metadataParse_varchar_numeric_tails
    (env : Env) (opts : InternalConnectionOptions) (tv tn : Nat)
    (nameV nameN : DataTypeName)
    (hv : env.TYPE tv = some nameV)
    (hvfam : nameV = .VarChar ∨ nameV = .Char ∨ nameV = .NVarChar ∨ nameV = .NChar)
    (hn : env.TYPE tn = some nameN)
    (hnfam : nameN = .NumericN ∨ nameN = .DecimalN)
    (u0 u1 u2 u3 f0 f1 l0 l1 c0 c1 c2 c3 c4 d p s : Nat) (rest : List Nat) :
    metadataParse env opts
        ((if opts.tdsVersion < "7_2" then [u0, u1] else [u0, u1, u2, u3])
          ++ f0 :: f1 :: tv :: l0 :: l1 :: c0 :: c1 :: c2 :: c3 :: c4 :: rest)
      = .ok { userType := if opts.tdsVersion < "7_2" then u0 + u1 * 256
                          else u0 + u1 * 256 + u2 * 65536 + u3 * 16777216,
              flags := f0 + f1 * 256, type := nameV,
              collation := some (_parseCollation env.codepageByLcid env.codepageBySortId
                                  ⟨c0, c1, c2, c3, c4⟩),
              precision := none, scale := none, dataLength := some (l0 + l1 * 256),
              schema := none, udtInfo := none } rest
    ∧ metadataParse env opts
        ((if opts.tdsVersion < "7_2" then [u0, u1] else [u0, u1, u2, u3])
          ++ f0 :: f1 :: tn :: d :: p :: s :: rest)
      = .ok { userType := if opts.tdsVersion < "7_2" then u0 + u1 * 256
                          else u0 + u1 * 256 + u2 * 65536 + u3 * 16777216,
              flags := f0 + f1 * 256, type := nameN,
              collation := none, precision := some p, scale := some s,
              dataLength := some d, schema := none, udtInfo := none } rest := by
  constructor
  · rcases hvfam with h | h | h | h <;> subst h <;>
      by_cases hver : opts.tdsVersion < "7_2" <;>
      simp [hver, metadataParse, mdTail, pbind, readUInt16LE, readUInt32LE, readUInt8,
        hv, readCollation_cons, ppure]
  · rcases hnfam with h | h <;> subst h <;>
      by_cases hver : opts.tdsVersion < "7_2" <;>
      simp [hver, metadataParse, mdTail, pbind, readUInt16LE, readUInt32LE, readUInt8,
        hn, ppure]

/-- Witness for C4: a VarChar column (id 0xA7) and a DecimalN column
(id 0x6A) decoded on a TDS 7.4 connection. -/
theorem metadataParse_varchar_numeric_tails_witness :
    sampleEnv.TYPE 167 = some DataTypeName.VarChar
    ∧ sampleEnv.TYPE 106 = some DataTypeName.DecimalN
    ∧ metadataParse sampleEnv sampleOptions74
        [2, 0, 0, 0, 3, 0, 167, 3, 0, 9, 4, 224, 36, 0]
      = .ok { userType := 2, flags := 3, type := .VarChar,
              collation := some (_parseCollation sampleLcidTable sampleSortIdTable
                                  ⟨9, 4, 224, 36, 0⟩),
              precision := none, scale := none, dataLength := some 3,
              schema := none, udtInfo := none } []
    ∧ metadataParse sampleEnv sampleOptions74 [2, 0, 0, 0, 3, 0, 106, 5, 10, 2]
      = .ok { userType := 2, flags := 3, type := .DecimalN,
              collation := none, precision := some 10, scale := some 2,
              dataLength := some 5, schema := none, udtInfo := none } [] := by
  have h := metadataParse_varchar_numeric_tails sampleEnv sampleOptions74 167 106
    .VarChar .DecimalN rfl (Or.inl rfl) rfl (Or.inr rfl)
    2 0 0 0 3 0 3 0 9 4 224 36 0 5 10 2 []
  simp only [if_neg tds74_not_lt] at h
  refine ⟨rfl, rfl, ?_, ?_⟩
  · simpa [sampleEnv] using h.1
  · simpa using h.2

/-- C6: `metadataParse` reads `userType` as a little-endian u16 when the
connection's `tdsVersion` string orders lexicographically before
`"7_2"`, and as a little-endian u32 otherwise; in both cases it then
reads `flags` as a little-endian u16 and the type id as a u8, in that
order (observed here through a column of type Int, which has no tail). -/
theorem metadataParse_userType_width (env : Env) (opts : InternalConnectionOptions)
    (t : Nat) (ht : env.TYPE t = some DataTypeName.Int)
    (u0 u1 u2 u3 f0 f1 : Nat) (rest : List Nat) :
    (opts.tdsVersion < "7_2" →
      metadataParse env opts (u0 :: u1 :: f0 :: f1 :: t :: rest)
        = .ok { userType := u0 + u1 * 256, flags := f0 + f1 * 256, type := .Int,
                collation := none, precision := none, scale := none,
                dataLength := none, schema := none, udtInfo := none } rest)
    ∧ (¬ opts.tdsVersion < "7_2" →
      metadataParse env opts (u0 :: u1 :: u2 :: u3 :: f0 :: f1 :: t :: rest)
        = .ok { userType := u0 + u1 * 256 + u2 * 65536 + u3 * 16777216,
                flags := f0 + f1 * 256, type := .Int,
                collation := none, precision := none, scale := none,
                dataLength := none, schema := none, udtInfo := none } rest) := by
  constructor <;> intro hver <;>
    simp [metadataParse, mdTail, pbind, hver, readUInt16LE, readUInt32LE, readUInt8, ht, ppure]

/-- Witness for C6: the same Int column bytes decoded once on a TDS 7.1
connection (2-byte userType) and once on a TDS 7.4 connection (4-byte
userType). -/
theorem metadataParse_userType_width_witness :
    sampleEnv.TYPE 56 = some DataTypeName.Int
    ∧ sampleOptions71.tdsVersion < "7_2"
    ∧ ¬ sampleOptions74.tdsVersion < "7_2"
    ∧ metadataParse sampleEnv sampleOptions71 [2, 0, 3, 0, 56]
      = .ok { userType := 2, flags := 3, type := .Int,
              collation := none, precision := none, scale := none,
              dataLength := none, schema := none, udtInfo := none } []
    ∧ metadataParse sampleEnv sampleOptions74 [2, 0, 0, 0, 3, 0, 56]
      = .ok { userType := 2, flags := 3, type := .Int,
              collation := none, precision := none, scale := none,
              dataLength := none, schema := none, udtInfo := none } [] := by
  refine ⟨rfl, tds71_lt, tds74_not_lt, ?_, ?_⟩
  · have h := (metadataParse_userType_width sampleEnv sampleOptions71 56 rfl
      2 0 0 0 3 0 []).1 tds71_lt
    simpa using h
  · have h := (metadataParse_userType_width sampleEnv sampleOptions74 56 rfl
      2 0 0 0 3 0 []).2 tds74_not_lt
    simpa using h

/-- Predicate: a reader can deliver a value or suspend, but never throws
a JavaScript error. -/
def NeverThrows {α : Type} (p : ParserM α) : Prop :=
  ∀ input m, p input ≠ .thrown m

/-- Sequencing preserves `NeverThrows` when the continuation is safe on
every value the first reader can actually deliver. -/
theorem neverThrows_pbind {α β : Type} {p : ParserM α} {f : α → ParserM β}
    (hp : NeverThrows p)
    (hf : ∀ a inp rest, p inp = .ok a rest → ∀ m, f a rest ≠ .thrown m) :
    NeverThrows (pbind p f) := by
  intro input m h
  unfold pbind at h
  cases hcase : p input with
  | ok v rest => rw [hcase] at h; exact hf v input rest hcase m h
  | thrown m2 => exact hp input m2 hcase
  | needMore => rw [hcase] at h; exact PResult.noConfusion h

/-- Sequencing preserves `NeverThrows` when the continuation is safe on
every value. -/
theorem neverThrows_pbind_all {α β : Type} {p : ParserM α} {f : α → ParserM β}
    (hp : NeverThrows p) (hf : ∀ a, NeverThrows (f a)) :
    NeverThrows (pbind p f) :=
  neverThrows_pbind hp (fun a _ rest _ m => hf a rest m)

/-- Yielding a value never throws. -/
theorem neverThrows_ppure {α : Type} (a : α) : NeverThrows (ppure a) := by
  intro input m h
  exact PResult.noConfusion h

/-- Reading a u8 never throws. -/
theorem neverThrows_readUInt8 : NeverThrows readUInt8 := by
  intro input m h
  unfold readUInt8 at h
  cases input <;> exact PResult.noConfusion h

/-- Reading a u16 never throws. -/
theorem neverThrows_readUInt16LE : NeverThrows readUInt16LE := by
  intro input m h
  unfold readUInt16LE at h
  cases input with
  | nil => exact PResult.noConfusion h
  | cons b0 t => cases t <;> exact PResult.noConfusion h

/-- Reading a u32 never throws. -/
theorem neverThrows_readUInt32LE : NeverThrows readUInt32LE := by
  intro input m h
  unfold readUInt32LE at h
  cases input with
  | nil => exact PResult.noConfusion h
  | cons b0 t =>
    cases t with
    | nil => exact PResult.noConfusion h
    | cons b1 t =>
      cases t with
      | nil => exact PResult.noConfusion h
      | cons b2 t => cases t <;> exact PResult.noConfusion h

/-- Reading a fixed-size buffer never throws. -/
theorem neverThrows_readBuffer (n : Nat) : NeverThrows (readBuffer n) := by
  intro input m h
  unfold readBuffer at h
  split at h <;> exact PResult.noConfusion h

/-- A delivered buffer has exactly the requested size. -/
theorem readBuffer_ok_length {n : Nat} {input v rest : List Nat}
    (h : readBuffer n input = .ok v rest) : v.length = n := by
  unfold readBuffer at h
  split at h
  · injection h with h1 h2
    subst h1
    simpa [List.length_take] using Nat.min_eq_left (by assumption)
  · exact PResult.noConfusion h

/-- Reading a BVARCHAR never throws. -/
theorem neverThrows_readBVarChar : NeverThrows readBVarChar :=
  neverThrows_pbind_all neverThrows_readUInt8 fun len =>
    neverThrows_pbind_all (neverThrows_readBuffer (2 * len)) fun bytes =>
      neverThrows_ppure (ucs2Decode bytes)

/-- Reading a USVARCHAR never throws. -/
theorem neverThrows_readUsVarChar : NeverThrows readUsVarChar :=
  neverThrows_pbind_all neverThrows_readUInt16LE fun len =>
    neverThrows_pbind_all (neverThrows_readBuffer (2 * len)) fun bytes =>
      neverThrows_ppure (ucs2Decode bytes)

/-- Reading a collation never throws: the buffer reader always delivers
exactly 5 bytes, so the impossible-shape arm is unreachable. -/
theorem neverThrows_readCollation (env : Env) : NeverThrows (readCollation env) := by
  apply neverThrows_pbind (neverThrows_readBuffer 5)
  intro a inp rest hok m
  have hlen := readBuffer_ok_length hok
  rcases a with _ | ⟨b0, a⟩
  · simp at hlen
  rcases a with _ | ⟨b1, a⟩
  · simp at hlen
  rcases a with _ | ⟨b2, a⟩
  · simp at hlen
  rcases a with _ | ⟨b3, a⟩
  · simp at hlen
  rcases a with _ | ⟨b4, a⟩
  · simp at hlen
  rcases a with _ | ⟨b5, a⟩
  · intro h
    exact PResult.noConfusion h
  · simp at hlen

/-- Reading an XML schema block never throws. -/
theorem neverThrows_readSchema : NeverThrows readSchema := by
  unfold readSchema
  apply neverThrows_pbind_all neverThrows_readUInt8
  intro schemaPresent
  by_cases hp : schemaPresent = 0x01
  · rw [if_pos hp]
    exact neverThrows_pbind_all neverThrows_readBVarChar fun _ =>
      neverThrows_pbind_all neverThrows_readBVarChar fun _ =>
        neverThrows_pbind_all neverThrows_readUsVarChar fun _ =>
          neverThrows_ppure _
  · rw [if_neg hp]
    exact neverThrows_ppure none

/-- Reading a UDT info block never throws. -/
theorem neverThrows_readUDTInfo : NeverThrows readUDTInfo :=
  neverThrows_pbind_all neverThrows_readUInt16LE fun _ =>
    neverThrows_pbind_all neverThrows_readBVarChar fun _ =>
      neverThrows_pbind_all neverThrows_readBVarChar fun _ =>
        neverThrows_pbind_all neverThrows_readBVarChar fun _ =>
          neverThrows_pbind_all neverThrows_readUsVarChar fun _ =>
            neverThrows_ppure _

/-- Check whether a parse result delivered a value. -/
def PResult.isOk {α : Type} : PResult α → Bool
  | .ok _ _ => true
  | _ => false

/-- Whatever type resolution produced, the per-type tail decoder never
throws: every branch of the switch is built from suspendable readers
that deliver or suspend. -/
theorem neverThrows_mdTail (env : Env) (name : DataTypeName) (u f : Nat) :
    NeverThrows (mdTail env name u f) := by
  cases name <;>
    first
    | exact neverThrows_ppure _
    | exact neverThrows_pbind_all neverThrows_readUInt8 fun _ => neverThrows_ppure _
    | exact neverThrows_pbind_all neverThrows_readUInt16LE fun _ => neverThrows_ppure _
    | exact neverThrows_pbind_all neverThrows_readUInt32LE fun _ => neverThrows_ppure _
    | exact neverThrows_pbind_all neverThrows_readUInt16LE fun _ =>
        neverThrows_pbind_all (neverThrows_readCollation env) fun _ => neverThrows_ppure _
    | exact neverThrows_pbind_all neverThrows_readUInt32LE fun _ =>
        neverThrows_pbind_all (neverThrows_readCollation env) fun _ => neverThrows_ppure _
    | exact neverThrows_pbind_all neverThrows_readSchema fun _ => neverThrows_ppure _
    | exact neverThrows_pbind_all neverThrows_readUInt8 fun _ =>
        neverThrows_pbind_all neverThrows_readUInt8 fun _ =>
          neverThrows_pbind_all neverThrows_readUInt8 fun _ => neverThrows_ppure _
    | exact neverThrows_pbind_all neverThrows_readUDTInfo fun _ => neverThrows_ppure _

/-- Every per-type tail decoder delivers a metadata record on a suitable
tail of bytes. -/
theorem mdTail_delivers (env : Env) (name : DataTypeName) (u f : Nat) :
    ∃ tail, (mdTail env name u f tail).isOk = true := by
  cases name <;>
    first
    | exact ⟨[], rfl⟩
    | exact ⟨[0], rfl⟩
    | exact ⟨[0, 0], rfl⟩
    | exact ⟨[0, 0, 0], rfl⟩
    | exact ⟨[0, 0, 0, 0], rfl⟩
    | exact ⟨[0, 0, 0, 0, 0, 0, 0], rfl⟩
    | exact ⟨[0, 0, 0, 0, 0, 0, 0, 0, 0], rfl⟩

/-- Reduction of `metadataParse` to the per-type tail decoder on a TDS
version below 7.2 when the type id resolves. -/
theorem metadataParse_resolved_16 (env : Env) (opts : InternalConnectionOptions)
    (hver : opts.tdsVersion < "7_2") {t : Nat} {name : DataTypeName}
    (hname : env.TYPE t = some name) (u0 u1 f0 f1 : Nat) (rest : List Nat) :
    metadataParse env opts (u0 :: u1 :: f0 :: f1 :: t :: rest)
      = mdTail env name (u0 + u1 * 256) (f0 + f1 * 256) rest := by
  simp [metadataParse, pbind, readUInt16LE, readUInt8, hver, hname]

/-- Reduction of `metadataParse` to the per-type tail decoder on a TDS
version at least 7.2 when the type id resolves. -/
theorem metadataParse_resolved_32 (env : Env) (opts : InternalConnectionOptions)
    (hver : ¬ opts.tdsVersion < "7_2") {t : Nat} {name : DataTypeName}
    (hname : env.TYPE t = some name) (u0 u1 u2 u3 f0 f1 : Nat) (rest : List Nat) :
    metadataParse env opts (u0 :: u1 :: u2 :: u3 :: f0 :: f1 :: t :: rest)
      = mdTail env name (u0 + u1 * 256 + u2 * 65536 + u3 * 16777216) (f0 + f1 * 256) rest := by
  simp [metadataParse, pbind, readUInt16LE, readUInt32LE, readUInt8, hver, hname]

/-- C5: an unknown type id is fatal and only that: when the type id byte
does not resolve in the registry, `metadataParse` throws exactly
`"Unrecognised data type 0x<id>"`; when it does resolve, no continuation
ever throws, and with a suitable tail of bytes a metadata record is
delivered to the callback. -/
theorem metadataParse_unknown_type_only_fatal
    (env : Env) (opts : InternalConnectionOptions)
    (t u0 u1 u2 u3 f0 f1 : Nat) :
    (env.TYPE t = none →
      ∀ rest, metadataParse env opts
          ((if opts.tdsVersion < "7_2" then [u0, u1] else [u0, u1, u2, u3])
            ++ f0 :: f1 :: t :: rest)
        = .thrown ("Unrecognised data type 0x" ++ sprintf02X t))
    ∧ (∀ name, env.TYPE t = some name →
        (∀ rest m, metadataParse env opts
            ((if opts.tdsVersion < "7_2" then [u0, u1] else [u0, u1, u2, u3])
              ++ f0 :: f1 :: t :: rest) ≠ .thrown m)
        ∧ ∃ tail, (metadataParse env opts
            ((if opts.tdsVersion < "7_2" then [u0, u1] else [u0, u1, u2, u3])
              ++ f0 :: f1 :: t :: tail)).isOk = true) := by
  constructor
  · intro hnone rest
    by_cases hver : opts.tdsVersion < "7_2" <;>
      simp [hver, metadataParse, pbind, readUInt16LE, readUInt32LE, readUInt8,
        hnone, pthrow]
  · intro name hname
    constructor
    · intro rest m
      by_cases hver : opts.tdsVersion < "7_2"
      · rw [if_pos hver]
        show metadataParse env opts (u0 :: u1 :: f0 :: f1 :: t :: rest) ≠ _
        rw [metadataParse_resolved_16 env opts hver hname]
        exact neverThrows_mdTail env name _ _ rest m
      · rw [if_neg hver]
        show metadataParse env opts (u0 :: u1 :: u2 :: u3 :: f0 :: f1 :: t :: rest) ≠ _
        rw [metadataParse_resolved_32 env opts hver hname]
        exact neverThrows_mdTail env name _ _ rest m
    · by_cases hver : opts.tdsVersion < "7_2"
      · rw [if_pos hver]
        obtain ⟨tail, htail⟩ := mdTail_delivers env name (u0 + u1 * 256) (f0 + f1 * 256)
        refine ⟨tail, ?_⟩
        show ((metadataParse env opts (u0 :: u1 :: f0 :: f1 :: t :: tail)).isOk) = true
        rw [metadataParse_resolved_16 env opts hver hname]
        exact htail
      · rw [if_neg hver]
        obtain ⟨tail, htail⟩ := mdTail_delivers env name
          (u0 + u1 * 256 + u2 * 65536 + u3 * 16777216) (f0 + f1 * 256)
        refine ⟨tail, ?_⟩
        show ((metadataParse env opts (u0 :: u1 :: u2 :: u3 :: f0 :: f1 :: t :: tail)).isOk) = true
        rw [metadataParse_resolved_32 env opts hver hname]
        exact htail

/-- Witness for C5: id 0x27 is unmapped in the sample registry and
throws the formatted message; id 0x38 resolves to Int, never throws, and
delivers a record. -/
theorem metadataParse_unknown_type_only_fatal_witness :
    sampleEnv.TYPE 39 = none
    ∧ sampleEnv.TYPE 56 = some DataTypeName.Int
    ∧ metadataParse sampleEnv sampleOptions74 [0, 0, 0, 0, 0, 0, 39]
        = .thrown ("Unrecognised data type 0x" ++ sprintf02X 39)
    ∧ sprintf02X 39 = "27"
    ∧ metadataParse sampleEnv sampleOptions74 [0, 0, 0, 0, 0, 0, 56] ≠ .thrown "boom"
    ∧ (metadataParse sampleEnv sampleOptions74 [0, 0, 0, 0, 0, 0, 56]).isOk = true := by
  have h := metadataParse_unknown_type_only_fatal sampleEnv sampleOptions74 39 0 0 0 0 0 0
  have h56 := metadataParse_unknown_type_only_fatal sampleEnv sampleOptions74 56 0 0 0 0 0 0
  have hred := @metadataParse_resolved_32 sampleEnv sampleOptions74 tds74_not_lt
    56 DataTypeName.Int rfl 0 0 0 0 0 0 []
  refine ⟨rfl, rfl, ?_, by decide, ?_, ?_⟩
  · have h1 := h.1 rfl []
    rw [if_neg tds74_not_lt] at h1
    simpa using h1
  · have h2 := (h56.2 DataTypeName.Int rfl).1 [] "boom"
    rw [if_neg tds74_not_lt] at h2
    simpa using h2
  · rw [hred]
    rfl

/-- Modelled from the spec: the phases of a bulk-load handle
(`bulk-load.ts` is not part of the excerpt; only its integration tests
are). Phase is `configuring` on construction. -/
inductive BulkPhase where
  | configuring
  | executing
  | cancelled
  | completed
  | errored
deriving Repr, DecidableEq

/-- Modelled from the spec: a column definition appended by `addColumn`. -/
structure ColumnDef where
  name : String
  typeName : DataTypeName
  nullable : Bool
  length : Option Nat
  precision : Option Nat
  scale : Option Nat
  objName : Option String
deriving Repr, DecidableEq

/-- Modelled from the spec: the shape of the row source handed to
`execBulkLoad` — a synchronous source (array, iterator) or an
asynchronous one (stream, async iterator). -/
inductive RowSourceKind where
  | sync
  | async
deriving Repr, DecidableEq

/-- Modelled from the spec: the bulk-load handle state observed by
`addColumn` and `execBulkLoad`. -/
structure BulkLoad where
  tableName : String
  phase : BulkPhase
  columns : List ColumnDef
deriving Repr, DecidableEq

/-- Modelled from the spec: `newBulkLoad` returns a handle in phase
`configuring` with no columns. -/
def newBulkLoad (tableName : String) : BulkLoad :=
  { tableName := tableName, phase := .configuring, columns := [] }

/-- Modelled from the spec: `addColumn` appends a column; it is valid
only in phase `configuring` and otherwise fails with exactly the message
`"Columns cannot be added to bulk insert after execution has started."`. -/
def addColumn (bl : BulkLoad) (c : ColumnDef) : Except String BulkLoad :=
  if bl.phase = .configuring then
    .ok { bl with columns := bl.columns ++ [c] }
  else
    .error "Columns cannot be added to bulk insert after execution has started."

/-- Modelled from the spec: `execBulkLoad` transitions the handle to
`executing`; the transition is one-way and does not depend on whether
the row source is synchronous or asynchronous. -/
def execBulkLoad (bl : BulkLoad) (_kind : RowSourceKind) : BulkLoad :=
  { bl with phase := .executing }

/-- Modelled from the spec: events that can occur once execution has
started — rows pulled from the source, cancellation, a timeout firing,
server completion, or a failure. -/
inductive BulkEvent where
  | rowYielded
  | cancel
  | timeoutFired
  | complete (rowCount : Nat)
  | fail (msg : String)
deriving Repr, DecidableEq

/-- Modelled from the spec: phase transitions after execution has
started; no event ever returns the handle to `configuring`. -/
def stepBulk (bl : BulkLoad) (e : BulkEvent) : BulkLoad :=
  match e with
  | .rowYielded => bl
  | .cancel => if bl.phase = .executing then { bl with phase := .cancelled } else bl
  | .timeoutFired => if bl.phase = .executing then { bl with phase := .cancelled } else bl
  | .complete _ => if bl.phase = .executing then { bl with phase := .completed } else bl
  | .fail _ => if bl.phase = .executing then { bl with phase := .errored } else bl

/-- Modelled from the spec: the handle after a sequence of post-execution
events. -/
def runBulk (bl : BulkLoad) (evs : List BulkEvent) : BulkLoad :=
  evs.foldl stepBulk bl

/-- One step never re-enters the `configuring` phase. -/
theorem stepBulk_not_configuring (s : BulkLoad) (e : BulkEvent)
    (h : s.phase ≠ .configuring) : (stepBulk s e).phase ≠ .configuring := by
  cases e with
  | rowYielded => simpa [stepBulk] using h
  | cancel => simp only [stepBulk]; split <;> simp_all
  | timeoutFired => simp only [stepBulk]; split <;> simp_all
  | complete n => simp only [stepBulk]; split <;> simp_all
  | fail m => simp only [stepBulk]; split <;> simp_all

/-- No sequence of steps re-enters the `configuring` phase. -/
theorem runBulk_not_configuring (evs : List BulkEvent) :
    ∀ s : BulkLoad, s.phase ≠ .configuring → (runBulk s evs).phase ≠ .configuring := by
  induction evs with
  | nil => intro s h; simpa [runBulk] using h
  | cons e tl ih =>
      intro s h
      have hfold : runBulk s (e :: tl) = runBulk (stepBulk s e) tl := rfl
      rw [hfold]
      exact ih _ (stepBulk_not_configuring s e h)

/-- C3: calling `addColumn` at any point after `execBulkLoad` has been
invoked — whatever the row source kind and whatever happens afterwards
(rows streaming, cancellation, timeout, completion, failure) — always
fails with exactly the message
`"Columns cannot be added to bulk insert after execution has started."`. -/
theorem addColumn_after_exec_fails (bl : BulkLoad) (kind : RowSourceKind)
    (evs : List BulkEvent) (c : ColumnDef) :
    addColumn (runBulk (execBulkLoad bl kind) evs) c
      = .error "Columns cannot be added to bulk insert after execution has started." := by
  have hne : (runBulk (execBulkLoad bl kind) evs).phase ≠ .configuring := by
    apply runBulk_not_configuring
    show BulkPhase.executing ≠ BulkPhase.configuring
    simp
  unfold addColumn
  rw [if_neg hne]

/-- JavaScript value handed to `SmallDateTime.validate`: `null`,
`undefined`, a `Date` instance (`none` time models an invalid date whose
time is NaN), or a non-`Date` value reduced to the result of coercing it
with `new Date(Date.parse(value))` (`none` models a failed parse). -/
inductive SqlValue where
  | jsNull
  | jsUndefined
  | jsDate (time : Option Int)
  | nonDate (parsed : Option Int)
deriving Repr, DecidableEq

/-- Result of `SmallDateTime.validate`: the null it returns for nil
input, a (coerced) date, or a returned — never thrown — `TypeError`. -/
inductive ValidationResult where
  | nullValue
  | dateValue (time : Option Int)
  | typeError (msg : String)
deriving Repr, DecidableEq

/-- Embedding of `SmallDateTime.validate`: nil input returns null;
non-`Date` input is coerced via date parsing; a value whose time is NaN
yields `TypeError("Invalid date.")` as a return value; otherwise the
date is returned. The function is total, so no path throws. -/
def SmallDateTime_validate : SqlValue → ValidationResult
  | .jsNull => .nullValue
  | .jsUndefined => .nullValue
  | .jsDate t => if t.isSome then .dateValue t else .typeError "Invalid date."
  | .nonDate p => if p.isSome then .dateValue p else .typeError "Invalid date."

/-- C7: `SmallDateTime.validate` returns null for null or undefined
input; every other input is coerced (non-`Date` values via date
parsing), and an invalid result returns — never throws — a `TypeError`
with message `"Invalid date."`, while a valid one returns the coerced
date. -/
theorem smallDateTime_validate_contract :
    SmallDateTime_validate .jsNull = .nullValue
    ∧ SmallDateTime_validate .jsUndefined = .nullValue
    ∧ (∀ p : Int, SmallDateTime_validate (.nonDate (some p)) = .dateValue (some p))
    ∧ SmallDateTime_validate (.nonDate none) = .typeError "Invalid date."
    ∧ (∀ d : Int, SmallDateTime_validate (.jsDate (some d)) = .dateValue (some d))
    ∧ SmallDateTime_validate (.jsDate none) = .typeError "Invalid date." :=
  ⟨rfl, rfl, fun _ => rfl, rfl, fun _ => rfl, rfl⟩

/-- Encoder-side parameter value: `parameter.value` as seen by the
SmallDateTime encoders — nil (null or undefined), or a valid `Date`
carrying its time in milliseconds since the Unix epoch. -/
inductive ParamValue where
  | jsNull
  | jsUndefined
  | date (time : Int)
deriving Repr, DecidableEq

/-- Encoding options: only `useUTC` is observed by SmallDateTime. -/
structure EncodeOptions where
  useUTC : Bool
deriving Repr, DecidableEq

/-- Model of the runtime timezone used by the non-UTC branch:
`getTimezoneOffset` (in minutes, positive west of UTC, as JavaScript) as
a function of the instant, and the instant of the locally-constructed
`EPOCH_DATE = new Date(1900, 0, 1)`. -/
structure TimeZoneModel where
  offset : Int → Int
  epochTime : Int

/-- Milliseconds value of `UTC_EPOCH_DATE = new Date(Date.UTC(1900, 0, 1))`:
25567 days before the Unix epoch. -/
def UTC_EPOCH_TIME : Int := -2208988800000

/-- JavaScript `Date.prototype.getUTCHours` on a time value. -/
def jsGetUTCHours (t : Int) : Int := Int.fdiv t 3600000 % 24

/-- JavaScript `Date.prototype.getUTCMinutes` on a time value. -/
def jsGetUTCMinutes (t : Int) : Int := Int.fdiv t 60000 % 60

/-- JavaScript `Date.prototype.getHours` under the modelled timezone. -/
def jsGetHours (tz : TimeZoneModel) (t : Int) : Int :=
  jsGetUTCHours (t - tz.offset t * 60000)

/-- JavaScript `Date.prototype.getMinutes` under the modelled timezone. -/
def jsGetMinutes (tz : TimeZoneModel) (t : Int) : Int :=
  jsGetUTCMinutes (t - tz.offset t * 60000)

/-- Node's `Buffer.writeUInt16LE`: produces the two little-endian bytes
of an integer in `[0, 65535]`; any other value throws a RangeError
(`ERR_OUT_OF_RANGE`). -/
def writeUInt16LE (v : Int) : Except String (List Nat) :=
  if 0 ≤ v ∧ v ≤ 65535 then .ok [v.toNat % 256, v.toNat / 256]
  else .error "ERR_OUT_OF_RANGE"

/-- Embedding of `SmallDateTime.generateParameterLength`: the single
byte `0x00` for nil values, `0x04` otherwise. -/
def SmallDateTime_generateParameterLength (_options : EncodeOptions) :
    ParamValue → List Nat
  | .jsNull => [0x00]
  | .jsUndefined => [0x00]
  | .date _ => [0x04]

/-- Embedding of the generator `SmallDateTime.generateParameterData`:
nil values yield no chunks at all; otherwise one 4-byte chunk holding
the day count (u16 LE at offset 0) and the minute count (u16 LE at
offset 2); either buffer write out of u16 range throws. -/
def SmallDateTime_generateParameterData (options : EncodeOptions) (tz : TimeZoneModel) :
    ParamValue → Except String (List (List Nat))
  | .jsNull => .ok []
  | .jsUndefined => .ok []
  | .date t =>
      let days : Int :=
        if options.useUTC then
          Int.fdiv (t - UTC_EPOCH_TIME) 86400000
        else
          let dstDiff := -(tz.offset t - tz.offset tz.epochTime) * 60 * 1000
          Int.fdiv (t - tz.epochTime + dstDiff) 86400000
      let minutes : Int :=
        if options.useUTC then
          jsGetUTCHours t * 60 + jsGetUTCMinutes t
        else
          jsGetHours tz t * 60 + jsGetMinutes tz t
      match writeUInt16LE days, writeUInt16LE minutes with
      | .ok b0, .ok b1 => .ok [b0 ++ b1]
      | .error e, _ => .error e
      | _, .error e => .error e

/-- Embedding of `SmallDateTime.toBuffer`: the same day and minute
computation as the generator, written into one 4-byte buffer; nil values
give an empty buffer. -/
def SmallDateTime_toBuffer (options : EncodeOptions) (tz : TimeZoneModel) :
    ParamValue → Except String (List Nat)
  | .jsNull => .ok []
  | .jsUndefined => .ok []
  | .date t =>
      let days : Int :=
        if options.useUTC then
          Int.fdiv (t - UTC_EPOCH_TIME) 86400000
        else
          let dstDiff := -(tz.offset t - tz.offset tz.epochTime) * 60 * 1000
          Int.fdiv (t - tz.epochTime + dstDiff) 86400000
      let minutes : Int :=
        if options.useUTC then
          jsGetUTCHours t * 60 + jsGetUTCMinutes t
        else
          jsGetHours tz t * 60 + jsGetMinutes tz t
      match writeUInt16LE days, writeUInt16LE minutes with
      | .ok b0, .ok b1 => .ok (b0 ++ b1)
      | .error e, _ => .error e
      | _, .error e => .error e

/-- Options with `useUTC` set, used in witness instantiations. -/
def utcOptions : EncodeOptions := ⟨true⟩

/-- A UTC-pinned timezone model (offset 0 everywhere), used in witness
instantiations; the UTC encoding branch never consults it. -/
def utcZone : TimeZoneModel := { offset := fun _ => 0, epochTime := UTC_EPOCH_TIME }

/-- An in-range u16 write produces the two little-endian bytes. -/
theorem writeUInt16LE_ok {v : Int} (h0 : 0 ≤ v) (h1 : v ≤ 65535) :
    writeUInt16LE v = .ok [v.toNat % 256, v.toNat / 256] := by
  unfold writeUInt16LE
  rw [if_pos ⟨h0, h1⟩]

/-- C10: for a nil parameter value (null or undefined),
`generateParameterLength` returns the single byte `0x00`,
`generateParameterData` yields no chunks at all, and `toBuffer` returns
an empty buffer — no encoding path emits data bytes. -/
theorem smallDateTime_nil_encoding (options : EncodeOptions) (tz : TimeZoneModel) :
    SmallDateTime_generateParameterLength options .jsNull = [0x00]
    ∧ SmallDateTime_generateParameterLength options .jsUndefined = [0x00]
    ∧ SmallDateTime_generateParameterData options tz .jsNull = .ok []
    ∧ SmallDateTime_generateParameterData options tz .jsUndefined = .ok []
    ∧ SmallDateTime_toBuffer options tz .jsNull = .ok []
    ∧ SmallDateTime_toBuffer options tz .jsUndefined = .ok [] :=
  ⟨rfl, rfl, rfl, rfl, rfl, rfl⟩

/-- Counterexample to C8 as stated: for the Date one day before the 1900
epoch (1899-12-31T00:00Z), the whole-day distance is `-1`, so no 16-bit
unsigned field can equal it and both encoders throw a RangeError instead
of emitting 4 bytes. -/
theorem smallDateTime_pre1900_no_bytes :
    Int.fdiv ((-2209075200000 : Int) - UTC_EPOCH_TIME) 86400000 = -1
    ∧ SmallDateTime_generateParameterData utcOptions utcZone (.date (-2209075200000))
        = .error "ERR_OUT_OF_RANGE"
    ∧ SmallDateTime_toBuffer utcOptions utcZone (.date (-2209075200000))
        = .error "ERR_OUT_OF_RANGE" := by
  refine ⟨by decide, rfl, rfl⟩

/-- C8 (amended): for every valid Date value with `options.useUTC` set
whose whole-day distance from 1900-01-01 (UTC) lies in `[0, 65535]`,
both encoders emit exactly 4 bytes — the day count as u16 LE, then the
UTC hours·60 + UTC minutes as u16 LE — and `generateParameterData` and
`toBuffer` produce identical bytes; outside that range the u16 buffer
write throws a RangeError instead. -/
theorem smallDateTime_utc_encoding (options : EncodeOptions) (tz : TimeZoneModel) (t : Int)
    (hutc : options.useUTC = true)
    (hlo : 0 ≤ Int.fdiv (t - UTC_EPOCH_TIME) 86400000)
    (hhi : Int.fdiv (t - UTC_EPOCH_TIME) 86400000 ≤ 65535) :
    SmallDateTime_generateParameterData options tz (.date t)
      = .ok [[(Int.fdiv (t - UTC_EPOCH_TIME) 86400000).toNat % 256,
              (Int.fdiv (t - UTC_EPOCH_TIME) 86400000).toNat / 256,
              (jsGetUTCHours t * 60 + jsGetUTCMinutes t).toNat % 256,
              (jsGetUTCHours t * 60 + jsGetUTCMinutes t).toNat / 256]]
    ∧ SmallDateTime_toBuffer options tz (.date t)
      = .ok [(Int.fdiv (t - UTC_EPOCH_TIME) 86400000).toNat % 256,
             (Int.fdiv (t - UTC_EPOCH_TIME) 86400000).toNat / 256,
             (jsGetUTCHours t * 60 + jsGetUTCMinutes t).toNat % 256,
             (jsGetUTCHours t * 60 + jsGetUTCMinutes t).toNat / 256] := by
  have hm0 : 0 ≤ jsGetUTCHours t * 60 + jsGetUTCMinutes t := by
    have h1 : 0 ≤ Int.fdiv t 3600000 % 24 := Int.emod_nonneg _ (by norm_num)
    have h2 : 0 ≤ Int.fdiv t 60000 % 60 := Int.emod_nonneg _ (by norm_num)
    unfold jsGetUTCHours jsGetUTCMinutes
    omega
  have hm1 : jsGetUTCHours t * 60 + jsGetUTCMinutes t ≤ 65535 := by
    have h1 : Int.fdiv t 3600000 % 24 < 24 := Int.emod_lt_of_pos _ (by norm_num)
    have h2 : Int.fdiv t 60000 % 60 < 60 := Int.emod_lt_of_pos _ (by norm_num)
    have h3 : 0 ≤ Int.fdiv t 3600000 % 24 := Int.emod_nonneg _ (by norm_num)
    have h4 : 0 ≤ Int.fdiv t 60000 % 60 := Int.emod_nonneg _ (by norm_num)
    unfold jsGetUTCHours jsGetUTCMinutes
    omega
  have hd := writeUInt16LE_ok hlo hhi
  have hm := writeUInt16LE_ok hm0 hm1
  constructor <;>
    simp [SmallDateTime_generateParameterData, SmallDateTime_toBuffer, hutc, hd, hm]

/-- Witness for C8 (amended): the Unix epoch instant (1970-01-01T00:00Z)
is 25567 whole days after the 1900 epoch and encodes to the bytes
`DF 63 00 00` through both encoders. -/
theorem smallDateTime_utc_encoding_witness :
    utcOptions.useUTC = true
    ∧ 0 ≤ Int.fdiv ((0 : Int) - UTC_EPOCH_TIME) 86400000
    ∧ Int.fdiv ((0 : Int) - UTC_EPOCH_TIME) 86400000 ≤ 65535
    ∧ SmallDateTime_generateParameterData utcOptions utcZone (.date 0)
        = .ok [[223, 99, 0, 0]]
    ∧ SmallDateTime_toBuffer utcOptions utcZone (.date 0) = .ok [223, 99, 0, 0] := by
  have h := smallDateTime_utc_encoding utcOptions utcZone 0 rfl (by decide) (by decide)
  refine ⟨rfl, by decide, by decide, ?_, ?_⟩
  · rw [h.1]
    rfl
  · rw [h.2]
    rfl

end Tedious
